import Mathlib

/-!
Verification of the lazy-attribute cache client in `artist.py` (pyechonest).

The embedding models decoded JSON responses as `Value`, outgoing request
parameters as `PVal` association lists, the remote call gateway as a function
from requests to `Except`, and each accessor of `Artist` as a pure function
returning the call result, the post-call entity state, and the list of
gateway invocations it performed.
-/

set_option linter.unusedVariables false

namespace Pyechonest

/-- A decoded JSON-like response value, as returned by the remote gateway. -/
inductive Value where
  | null : Value
  | str : String → Value
  | num : Rat → Value
  | arr : List Value → Value
  | obj : List (String × Value) → Value

/-- A request parameter value: strings, numbers, or lists of strings
(buckets, ids, names), matching the gateway contract. -/
inductive PVal where
  | str : String → PVal
  | num : Rat → PVal
  | strList : List String → PVal
deriving DecidableEq

/-- Errors an accessor or query can surface: a gateway (remote call) failure
carrying the gateway's message, a missing-key indexing error (Python
`KeyError`), or a type mismatch (Python `TypeError`/`AttributeError`). -/
inductive Err where
  | gateway : String → Err
  | keyError : String → Err
  | typeError : Err
deriving DecidableEq

abbrev Params := List (String × PVal)

abbrev Cache := List (String × Value)

/-- First-match lookup in an association list (Python `dict[k]` / `dict.get`). -/
def kvLookup {α : Type} : List (String × α) → String → Option α
  | [], _ => none
  | (k', v) :: t, k => if k' = k then some v else kvLookup t k

/-- Python `dict` assignment: overwrite in place if the key exists,
otherwise append at the end. -/
def cacheSet : Cache → String → Value → Cache
  | [], k, v => [(k, v)]
  | (k', v') :: t, k, v => if k' = k then (k, v) :: t else (k', v') :: cacheSet t k v

/-- Python `k in dict`. -/
def cacheContains (c : Cache) (k : String) : Bool :=
  (kvLookup c k).isSome

/-- Modelled from the spec: `ArtistProxy` (in `proxies.py`, not under `src/`)
holds an opaque identifier, an optional display name, and a mutable
per-instance attribute cache mapping attribute names to raw fetched values. -/
structure Artist where
  id : String
  name : Option String
  cache : Cache

/-- Modelled from the spec: `get_attribute` (in `proxies.py`, not under
`src/`) invokes the Remote Call Gateway for this entity's identity with the
attribute name and the supplied parameters. -/
structure AttrRequest where
  artistId : String
  attr : String
  params : Params
deriving DecidableEq

/-- A request made through `util.callm` (`util.py`, not under `src/`):
a resource path such as `artist/search` plus a parameter mapping. -/
structure CallmRequest where
  path : String
  params : Params
deriving DecidableEq

/-- The remote call gateway behind `get_attribute`: answers each request with
a decoded response or fails with a message. -/
abbrev AttrGateway := AttrRequest → Except String Value

/-- The remote call gateway behind `util.callm`. -/
abbrev CallmGateway := CallmRequest → Except String Value

/-- Observable outcome of one accessor invocation: the returned value or
error, the entity state after the call, and the gateway requests issued. -/
structure Outcome (α : Type) where
  result : Except Err α
  artist : Artist
  calls : List AttrRequest

/-- Observable outcome of one module-level query function invocation. -/
structure QOutcome (α : Type) where
  result : Except Err α
  calls : List CallmRequest

/-- Modelled from the spec: `Result` (in `results.py`, not under `src/`) is
an immutable pairing of a kind label and the raw field mapping of one item. -/
structure Result where
  kind : String
  fields : Value

/-- Python subscript `v[k]`: raises `KeyError` when the key is absent and
`TypeError` when `v` is not a mapping. -/
def objIndex (v : Value) (k : String) : Except Err Value :=
  match v with
  | .obj kvs =>
      match kvLookup kvs k with
      | some x => .ok x
      | none => .error (.keyError k)
  | _ => .error .typeError

/-- Iterated subscripting, e.g. `response['artist']['hotttnesss']`. -/
def indexPath (v : Value) : List String → Except Err Value
  | [] => .ok v
  | k :: ks =>
      match objIndex v k with
      | .error e => .error e
      | .ok w => indexPath w ks

/-- The lazy-accessor skeleton shared by every cached attribute of `Artist`
(`artist.py`, e.g. lines 58-61):
`if not (cache and (key in self.cache)): response = self.get_attribute(...);`
`self.cache[key] = response[...path...]` and then `return self.cache[key]`.
The returned raw value is the one re-read from the cache, as in the source. -/
def fetchRaw (gw : AttrGateway) (a : Artist) (key : String) (req : AttrRequest)
    (path : List String) (useCache : Bool) : Outcome Value :=
  if useCache && cacheContains a.cache key then
    match kvLookup a.cache key with
    | some v => ⟨.ok v, a, []⟩
    | none => ⟨.error (.keyError key), a, []⟩
  else
    match gw req with
    | .error e => ⟨.error (.gateway e), a, [req]⟩
    | .ok resp =>
      match indexPath resp path with
      | .error e => ⟨.error e, a, [req]⟩
      | .ok raw =>
        let a2 : Artist := { a with cache := cacheSet a.cache key raw }
        match kvLookup a2.cache key with
        | some v => ⟨.ok v, a2, [req]⟩
        | none => ⟨.error (.keyError key), a2, [req]⟩

/-- Post-compose the caller-facing adaptation step onto a raw outcome; the
adaptation happens on every call, also on cache hits, and a failing
adaptation leaves the already-updated cache in place (as in the source,
where `self.cache[attr] = ...` precedes the list comprehension). -/
def mapOutcome {α : Type} (f : Value → Except Err α) (o : Outcome Value) : Outcome α :=
  { result :=
      match o.result with
      | .ok v => f v
      | .error e => .error e,
    artist := o.artist,
    calls := o.calls }

/-- The list comprehension `[Result(kind, x) for x in raw]`: iterating a
non-list raises `TypeError`. -/
def adaptResults (kind : String) (v : Value) : Except Err (List Result) :=
  match v with
  | .arr xs => .ok (xs.map fun x => Result.mk kind x)
  | _ => .error .typeError

/-- Modelled from the spec together with `Artist(**fix(a_dict))`: an Entity
adapted from a raw structure is constructed from that item's raw fields
(`id` is required, `name` optional, remaining fields seed the cache). -/
def artistFromDict (kvs : List (String × Value)) : Except Err Artist :=
  match kvLookup kvs "id" with
  | some (.str i) =>
      .ok { id := i,
            name :=
              match kvLookup kvs "name" with
              | some (.str n) => some n
              | _ => none,
            cache := kvs.filter fun kv => decide (kv.1 ≠ "id") && decide (kv.1 ≠ "name") }
  | _ => .error (.keyError "id")

/-- The comprehension `[Artist(**fix(a)) for a in raw]`; each element must be
a mapping (`fix` calls `.iteritems()` on it). -/
def artistsOf : List Value → Except Err (List Artist)
  | [] => .ok []
  | v :: vs =>
      match v with
      | .obj kvs =>
          match artistFromDict kvs with
          | .error e => .error e
          | .ok a =>
              match artistsOf vs with
              | .error e => .error e
              | .ok rest => .ok (a :: rest)
      | _ => .error .typeError

/-- `raw` must be a list of mappings; adapt each into an `Artist`. -/
def adaptArtists (v : Value) : Except Err (List Artist) :=
  match v with
  | .arr xs => artistsOf xs
  | _ => .error .typeError

/-- The `results=results, start=start` keyword pair every list-valued
attribute fetch passes to `get_attribute`. -/
def rsParams (results start : Int) : Params :=
  [("results", .num (results : Rat)), ("start", .num (start : Rat))]

/-- `if x: kwargs[k] = x` for an optional string argument (falsy: absent or empty). -/
def addStr (k : String) (v : Option String) : Params :=
  match v with
  | none => []
  | some s => if s = "" then [] else [(k, .str s)]

/-- `if x: kwargs[k] = x` for an optional numeric argument (falsy: absent or zero). -/
def addNum (k : String) (v : Option Rat) : Params :=
  match v with
  | none => []
  | some q => if q = 0 then [] else [(k, .num q)]

/-- `if x: kwargs[k] = x` for a plain integer argument (falsy: zero). -/
def addInt (k : String) (n : Int) : Params :=
  if n = 0 then [] else [(k, .num (n : Rat))]

/-- `if flag: kwargs[k] = 'true'` for a boolean flag. -/
def addFlag (k : String) (b : Bool) : Params :=
  if b then [(k, .str "true")] else []

/-- `if xs: kwargs[k] = xs` for a list argument (falsy: empty). -/
def addList (k : String) (xs : List String) : Params :=
  if xs = [] then [] else [(k, .strList xs)]

/-- The optional-filter keyword dict built by `Artist.get_similar`
(`artist.py` lines 207-220), in source order. -/
def get_similar_kwargs (max_familiarity min_familiarity max_hotttnesss min_hotttnesss : Option Rat)
    (buckets : Option (List String)) (limit : Bool) : Params :=
  addNum "max_familiarity" max_familiarity ++
  addNum "min_familiarity" min_familiarity ++
  addNum "max_hotttnesss" max_hotttnesss ++
  addNum "min_hotttnesss" min_hotttnesss ++
  addList "bucket" ((buckets.getD [])) ++
  addFlag "limit" limit

/-- `Artist.get_hotttnesss` (`artist.py` lines 49-61). -/
def get_hotttnesss (gw : AttrGateway) (a : Artist) (useCache : Bool) : Outcome Value :=
  fetchRaw gw a "hotttnesss" ⟨a.id, "hotttnesss", []⟩ ["artist", "hotttnesss"] useCache

/-- `Artist.get_audio` (`artist.py` lines 65-79). -/
def get_audio (gw : AttrGateway) (a : Artist) (results start : Int) (useCache : Bool) :
    Outcome (List Result) :=
  mapOutcome (adaptResults "audio")
    (fetchRaw gw a "audio" ⟨a.id, "audio", rsParams results start⟩ ["audio"] useCache)

/-- `Artist.get_biographies` (`artist.py` lines 83-98); the `license`
argument is accepted but unused, exactly as in the source. -/
def get_biographies (gw : AttrGateway) (a : Artist) (results start : Int) (license : String)
    (useCache : Bool) : Outcome (List Result) :=
  mapOutcome (adaptResults "biography")
    (fetchRaw gw a "biographies" ⟨a.id, "biographies", rsParams results start⟩ ["biographies"]
      useCache)

/-- `Artist.get_blogs` (`artist.py` lines 102-115). -/
def get_blogs (gw : AttrGateway) (a : Artist) (results start : Int) (useCache : Bool) :
    Outcome (List Result) :=
  mapOutcome (adaptResults "blogs")
    (fetchRaw gw a "blogs" ⟨a.id, "blogs", rsParams results start⟩ ["blogs"] useCache)

/-- `Artist.get_familiarity` (`artist.py` lines 119-131). -/
def get_familiarity (gw : AttrGateway) (a : Artist) (useCache : Bool) : Outcome Value :=
  fetchRaw gw a "familiarity" ⟨a.id, "familiarity", []⟩ ["artist", "familiarity"] useCache

/-- `Artist.get_images` (`artist.py` lines 135-150); the `license` argument
is accepted but unused, exactly as in the source. -/
def get_images (gw : AttrGateway) (a : Artist) (results start : Int) (license : String)
    (useCache : Bool) : Outcome (List Result) :=
  mapOutcome (adaptResults "image")
    (fetchRaw gw a "images" ⟨a.id, "images", rsParams results start⟩ ["images"] useCache)

/-- `Artist.get_news` (`artist.py` lines 154-168). -/
def get_news (gw : AttrGateway) (a : Artist) (results start : Int) (useCache : Bool) :
    Outcome (List Result) :=
  mapOutcome (adaptResults "news")
    (fetchRaw gw a "news" ⟨a.id, "news", rsParams results start⟩ ["news"] useCache)

/-- `Artist.get_reviews` (`artist.py` lines 172-185). -/
def get_reviews (gw : AttrGateway) (a : Artist) (results start : Int) (useCache : Bool) :
    Outcome (List Result) :=
  mapOutcome (adaptResults "review")
    (fetchRaw gw a "reviews" ⟨a.id, "reviews", rsParams results start⟩ ["reviews"] useCache)

/-- `Artist.get_similar` (`artist.py` lines 189-226): the optional-filter
kwargs follow `results`/`start` in the request, the raw `response['artists']`
list is cached, and each cached item is adapted into a fresh `Artist`. -/
def get_similar (gw : AttrGateway) (a : Artist) (results start : Int)
    (max_familiarity min_familiarity max_hotttnesss min_hotttnesss : Option Rat)
    (buckets : Option (List String)) (limit : Bool) (useCache : Bool) :
    Outcome (List Artist) :=
  mapOutcome adaptArtists
    (fetchRaw gw a "similar"
      ⟨a.id, "similar",
        rsParams results start ++
          get_similar_kwargs max_familiarity min_familiarity max_hotttnesss min_hotttnesss
            buckets limit⟩
      ["artists"] useCache)

/-- `Artist.get_urls` (`artist.py` lines 230-242). -/
def get_urls (gw : AttrGateway) (a : Artist) (useCache : Bool) : Outcome Result :=
  mapOutcome (fun v => .ok (Result.mk "urls" v))
    (fetchRaw gw a "urls" ⟨a.id, "urls", []⟩ ["urls"] useCache)

/-- `Artist.get_video` (`artist.py` lines 246-260). -/
def get_video (gw : AttrGateway) (a : Artist) (results start : Int) (useCache : Bool) :
    Outcome (List Result) :=
  mapOutcome (adaptResults "video")
    (fetchRaw gw a "video" ⟨a.id, "video", rsParams results start⟩ ["video"] useCache)

/-- `Artist.get_foreign_id` (`artist.py` lines 264-276): the cache key is the
namespace itself, the request asks for the profile with bucket
`['id:' + idspace]`, and `response['artist'].get(idspace)` (absent key gives
`None`, i.e. `.null`) is cached; the return value is `self.cache.get(idspace)`. -/
def get_foreign_id (gw : AttrGateway) (a : Artist) (idspace : String) (useCache : Bool) :
    Outcome Value :=
  if useCache && cacheContains a.cache idspace then
    ⟨.ok ((kvLookup a.cache idspace).getD .null), a, []⟩
  else
    let req : AttrRequest := ⟨a.id, "profile", [("bucket", .strList ["id:" ++ idspace])]⟩
    match gw req with
    | .error e => ⟨.error (.gateway e), a, [req]⟩
    | .ok resp =>
      match objIndex resp "artist" with
      | .error e => ⟨.error e, a, [req]⟩
      | .ok artistVal =>
        match artistVal with
        | .obj kvs =>
          let c := cacheSet a.cache idspace ((kvLookup kvs idspace).getD .null)
          ⟨.ok ((kvLookup c idspace).getD .null), { a with cache := c }, [req]⟩
        | _ => ⟨.error .typeError, a, [req]⟩

/-- A scalar-or-list argument, as accepted by the `names`/`ids` parameters of
the free function `similar` (`artist.py` lines 363-392). -/
inductive StrOrList where
  | one : String → StrOrList
  | many : List String → StrOrList
deriving DecidableEq

/-- Python truthiness of a scalar-or-list (`''` and `[]` are falsy). -/
def StrOrList.truthy : StrOrList → Bool
  | .one s => decide (s ≠ "")
  | .many xs => decide (xs ≠ [])

/-- `if not isinstance(x, list): x = [x]` — scalar-to-list normalization. -/
def StrOrList.toList : StrOrList → List String
  | .one s => [s]
  | .many xs => xs

/-- `if x: (normalize to list; kwargs[k] = x)` for an ids/names argument. -/
def addIds (k : String) (v : Option StrOrList) : Params :=
  match v with
  | none => []
  | some s => if s.truthy then [(k, .strList s.toList)] else []

/-- The parameter mapping built by the free function `search`
(`artist.py` lines 301-326), entries in source order. -/
def search_kwargs (name description : Option String) (results : Int)
    (buckets : Option (List String)) (limit exact sounds_like : Bool) (sort : Option String)
    (max_familiarity min_familiarity max_hotttnesss min_hotttnesss : Option Rat) : Params :=
  addStr "name" name ++
  addStr "description" description ++
  addInt "results" results ++
  addList "bucket" (buckets.getD []) ++
  addFlag "limit" limit ++
  addFlag "exact" exact ++
  addFlag "sounds_like" sounds_like ++
  addNum "max_familiarity" max_familiarity ++
  addNum "min_familiarity" min_familiarity ++
  addNum "max_hotttnesss" max_hotttnesss ++
  addNum "min_hotttnesss" min_hotttnesss ++
  addStr "sort" sort

/-- The parameter mapping built by the free function `top_hottt`
(`artist.py` lines 346-355), entries in source order. -/
def top_hottt_kwargs (start results : Int) (buckets : Option (List String)) (limit : Bool) :
    Params :=
  addInt "start" start ++
  addInt "results" results ++
  addList "bucket" (buckets.getD []) ++
  addFlag "limit" limit

/-- The parameter mapping built by the free function `similar`
(`artist.py` lines 382-408), entries in source order. -/
def similar_kwargs (names ids : Option StrOrList) (start results : Int)
    (buckets : Option (List String)) (limit : Bool)
    (max_familiarity min_familiarity max_hotttnesss min_hotttnesss : Option Rat) : Params :=
  addIds "id" ids ++
  addIds "name" names ++
  addNum "max_familiarity" max_familiarity ++
  addNum "min_familiarity" min_familiarity ++
  addNum "max_hotttnesss" max_hotttnesss ++
  addNum "min_hotttnesss" min_hotttnesss ++
  addInt "start" start ++
  addInt "results" results ++
  addList "bucket" (buckets.getD []) ++
  addFlag "limit" limit

/-- Common tail of the three query functions: one `util.callm` invocation,
then `[Artist(**fix(a_dict)) for a_dict in result['response']['artists']]`. -/
def queryCall (gw : CallmGateway) (path : String) (ps : Params) : QOutcome (List Artist) :=
  let req : CallmRequest := ⟨path, ps⟩
  match gw req with
  | .error e => ⟨.error (.gateway e), [req]⟩
  | .ok resp =>
    match indexPath resp ["response", "artists"] with
    | .error e => ⟨.error e, [req]⟩
    | .ok v =>
      match v with
      | .arr xs =>
        match artistsOf xs with
        | .error e => ⟨.error e, [req]⟩
        | .ok arts => ⟨.ok arts, [req]⟩
      | _ => ⟨.error .typeError, [req]⟩

/-- The free function `search` (`artist.py` lines 279-331). -/
def search (gw : CallmGateway) (name description : Option String) (results : Int)
    (buckets : Option (List String)) (limit exact sounds_like : Bool) (sort : Option String)
    (max_familiarity min_familiarity max_hotttnesss min_hotttnesss : Option Rat) :
    QOutcome (List Artist) :=
  queryCall gw "artist/search"
    (search_kwargs name description results buckets limit exact sounds_like sort
      max_familiarity min_familiarity max_hotttnesss min_hotttnesss)

/-- The free function `top_hottt` (`artist.py` lines 333-360). -/
def top_hottt (gw : CallmGateway) (start results : Int) (buckets : Option (List String))
    (limit : Bool) : QOutcome (List Artist) :=
  queryCall gw "artist/top_hottt" (top_hottt_kwargs start results buckets limit)

/-- The free function `similar` (`artist.py` lines 363-412). -/
def similar (gw : CallmGateway) (names ids : Option StrOrList) (start results : Int)
    (buckets : Option (List String)) (limit : Bool)
    (max_familiarity min_familiarity max_hotttnesss min_hotttnesss : Option Rat) :
    QOutcome (List Artist) :=
  queryCall gw "artist/similar"
    (similar_kwargs names ids start results buckets limit
      max_familiarity min_familiarity max_hotttnesss min_hotttnesss)

/-- Whether a raw fetch through the lazy skeleton actually reaches the
`self.cache[key] = ...` assignment: the fetch branch is taken, the gateway
answers, and the response navigation succeeds. -/
def storedB (gw : AttrGateway) (c : Cache) (key : String) (req : AttrRequest)
    (path : List String) (u : Bool) : Bool :=
  !(u && cacheContains c key) &&
    (match gw req with
     | .error _ => false
     | .ok resp =>
        match indexPath resp path with
        | .ok _ => true
        | .error _ => false)

/-- Whether a value is a mapping (Python: whether `.get` exists on it). -/
def isObjV : Value → Bool
  | .obj _ => true
  | _ => false

/-- Whether a `get_foreign_id` call reaches its `self.cache[idspace] = ...`
assignment: the fetch branch is taken, the gateway answers, and
`response['artist']` is a mapping. -/
def foreignStoredB (gw : AttrGateway) (a : Artist) (idspace : String) (u : Bool) : Bool :=
  !(u && cacheContains a.cache idspace) &&
    (match gw ⟨a.id, "profile", [("bucket", .strList ["id:" ++ idspace])]⟩ with
     | .error _ => false
     | .ok resp =>
        match objIndex resp "artist" with
        | .ok val => isObjV val
        | .error _ => false)

/-- One accessor invocation in an `Artist` history: which accessor, its
arguments, and the gateway behavior that answers it. -/
inductive Ev where
  | hotttnesss : AttrGateway → Bool → Ev
  | audio : AttrGateway → Int → Int → Bool → Ev
  | biographies : AttrGateway → Int → Int → String → Bool → Ev
  | blogs : AttrGateway → Int → Int → Bool → Ev
  | familiarity : AttrGateway → Bool → Ev
  | images : AttrGateway → Int → Int → String → Bool → Ev
  | news : AttrGateway → Int → Int → Bool → Ev
  | reviews : AttrGateway → Int → Int → Bool → Ev
  | similar : AttrGateway → Int → Int → Option Rat → Option Rat → Option Rat → Option Rat →
      Option (List String) → Bool → Bool → Ev
  | urls : AttrGateway → Bool → Ev
  | video : AttrGateway → Int → Int → Bool → Ev
  | foreignId : AttrGateway → String → Bool → Ev

/-- The cache key the event's accessor reads and writes. -/
def Ev.key : Ev → String
  | .hotttnesss _ _ => "hotttnesss"
  | .audio _ _ _ _ => "audio"
  | .biographies _ _ _ _ _ => "biographies"
  | .blogs _ _ _ _ => "blogs"
  | .familiarity _ _ => "familiarity"
  | .images _ _ _ _ _ => "images"
  | .news _ _ _ _ => "news"
  | .reviews _ _ _ _ => "reviews"
  | .similar _ _ _ _ _ _ _ _ _ _ => "similar"
  | .urls _ _ => "urls"
  | .video _ _ _ _ => "video"
  | .foreignId _ ns _ => ns

/-- The `cache` flag the event's accessor was called with. -/
def Ev.useCache : Ev → Bool
  | .hotttnesss _ u => u
  | .audio _ _ _ u => u
  | .biographies _ _ _ _ u => u
  | .blogs _ _ _ u => u
  | .familiarity _ u => u
  | .images _ _ _ _ u => u
  | .news _ _ _ u => u
  | .reviews _ _ _ u => u
  | .similar _ _ _ _ _ _ _ _ _ u => u
  | .urls _ u => u
  | .video _ _ _ u => u
  | .foreignId _ _ u => u

/-- Execute the event's accessor and keep the resulting entity state. -/
def Ev.step (e : Ev) (a : Artist) : Artist :=
  match e with
  | .hotttnesss gw u => (get_hotttnesss gw a u).artist
  | .audio gw r s u => (get_audio gw a r s u).artist
  | .biographies gw r s l u => (get_biographies gw a r s l u).artist
  | .blogs gw r s u => (get_blogs gw a r s u).artist
  | .familiarity gw u => (get_familiarity gw a u).artist
  | .images gw r s l u => (get_images gw a r s l u).artist
  | .news gw r s u => (get_news gw a r s u).artist
  | .reviews gw r s u => (get_reviews gw a r s u).artist
  | .similar gw r s f1 f2 f3 f4 b l u => (get_similar gw a r s f1 f2 f3 f4 b l u).artist
  | .urls gw u => (get_urls gw a u).artist
  | .video gw r s u => (get_video gw a r s u).artist
  | .foreignId gw ns u => (get_foreign_id gw a ns u).artist

/-- Whether the event, executed at state `a`, reaches its accessor's
`self.cache[key] = ...` assignment: the fetch branch is taken, the gateway
answered, and the response navigation succeeded. -/
def Ev.stores (e : Ev) (a : Artist) : Bool :=
  match e with
  | .hotttnesss gw u =>
      storedB gw a.cache "hotttnesss" ⟨a.id, "hotttnesss", []⟩ ["artist", "hotttnesss"] u
  | .audio gw r s u => storedB gw a.cache "audio" ⟨a.id, "audio", rsParams r s⟩ ["audio"] u
  | .biographies gw r s l u =>
      storedB gw a.cache "biographies" ⟨a.id, "biographies", rsParams r s⟩ ["biographies"] u
  | .blogs gw r s u => storedB gw a.cache "blogs" ⟨a.id, "blogs", rsParams r s⟩ ["blogs"] u
  | .familiarity gw u =>
      storedB gw a.cache "familiarity" ⟨a.id, "familiarity", []⟩ ["artist", "familiarity"] u
  | .images gw r s l u => storedB gw a.cache "images" ⟨a.id, "images", rsParams r s⟩ ["images"] u
  | .news gw r s u => storedB gw a.cache "news" ⟨a.id, "news", rsParams r s⟩ ["news"] u
  | .reviews gw r s u =>
      storedB gw a.cache "reviews" ⟨a.id, "reviews", rsParams r s⟩ ["reviews"] u
  | .similar gw r s f1 f2 f3 f4 b l u =>
      storedB gw a.cache "similar"
        ⟨a.id, "similar", rsParams r s ++ get_similar_kwargs f1 f2 f3 f4 b l⟩ ["artists"] u
  | .urls gw u => storedB gw a.cache "urls" ⟨a.id, "urls", []⟩ ["urls"] u
  | .video gw r s u => storedB gw a.cache "video" ⟨a.id, "video", rsParams r s⟩ ["video"] u
  | .foreignId gw ns u => foreignStoredB gw a ns u

/-- Run a history of accessor invocations from an initial entity state. -/
def runEvs (a : Artist) : List Ev → Artist
  | [] => a
  | e :: tr => runEvs (e.step a) tr

/-- Some event in the history stored under key `k` (with any `cache` flag). -/
def storedInB (a : Artist) : List Ev → String → Bool
  | [], _ => false
  | e :: tr, k => (e.stores a && decide (k = e.key)) || storedInB (e.step a) tr k

/-- Some event in the history was called with `cache=True`, worked under key
`k`, and its remote fetch succeeded — the population condition the spec's
invariant claims. -/
def storedWithCacheOn (a : Artist) : List Ev → String → Bool
  | [], _ => false
  | e :: tr, k =>
      (e.useCache && (e.stores a && decide (k = e.key))) || storedWithCacheOn (e.step a) tr k

/-- A profile response carrying a hotttnesss value. -/
def respHot : Value := .obj [("artist", .obj [("hotttnesss", .num 1)])]

/-- A gateway that always answers with `respHot`. -/
def gwHot : AttrGateway := fun _ => .ok respHot

/-- A gateway that always fails. -/
def gwBoom : AttrGateway := fun _ => .error "boom"

/-- A query gateway that always fails. -/
def gwQBoom : CallmRequest → Except String Value := fun _ => .error "boom"

/-- A fresh artist with an empty cache. -/
def artist0 : Artist := ⟨"ARH6W4X1187B99274F", none, []⟩

/-- An artist with a stale cached hotttnesss value. -/
def artistPre : Artist := ⟨"ARH6W4X1187B99274F", none, [("hotttnesss", .num 99)]⟩

/-- A search response carrying two raw artist entries. -/
def respSearch : Value :=
  .obj [("response",
    .obj [("artists", .arr [.obj [("id", .str "A1")], .obj [("id", .str "A2")]])])]

/-- A query gateway that always answers with `respSearch`. -/
def gwSearch : CallmRequest → Except String Value := fun _ => .ok respSearch

/-- A profile response whose artist mapping has no foreign-id namespaces. -/
def respNoNs : Value := .obj [("artist", .obj [("id", .str "AR1")])]

/-- A gateway that always answers with `respNoNs`. -/
def gwNoNs : AttrRequest → Except String Value := fun _ => .ok respNoNs

theorem kvLookup_cacheSet (c : Cache) (key k : String) (v : Value) :
    kvLookup (cacheSet c key v) k = if k = key then some v else kvLookup c k := by
  induction c with
  | nil =>
      by_cases h : k = key
      · simp [cacheSet, kvLookup, h]
      · simp [cacheSet, kvLookup, h, Ne.symm h]
  | cons hd t ih =>
      obtain ⟨x, b⟩ := hd
      by_cases h1 : x = key
      · subst h1
        by_cases h2 : x = k
        · subst h2
          simp [cacheSet, kvLookup]
        · simp [cacheSet, kvLookup, h2, Ne.symm h2]
      · by_cases h2 : x = k
        · subst h2
          simp [cacheSet, kvLookup, h1, ih, Ne.symm h1]
        · simp [cacheSet, kvLookup, h1, h2, ih]

theorem cacheContains_cacheSet (c : Cache) (key k : String) (v : Value) :
    cacheContains (cacheSet c key v) k = (cacheContains c k || decide (k = key)) := by
  unfold cacheContains
  rw [kvLookup_cacheSet]
  by_cases h : k = key <;> simp [h]

theorem fetchRaw_hit (gw : AttrGateway) (a : Artist) (key : String) (req : AttrRequest)
    (path : List String) (v : Value) (h : kvLookup a.cache key = some v) :
    fetchRaw gw a key req path true = ⟨.ok v, a, []⟩ := by
  unfold fetchRaw
  simp [cacheContains, h]

theorem fetchRaw_gwError (gw : AttrGateway) (a : Artist) (key : String) (req : AttrRequest)
    (path : List String) (u : Bool) (e : String) (hg : gw req = .error e)
    (h : (u && cacheContains a.cache key) = false) :
    fetchRaw gw a key req path u = ⟨.error (.gateway e), a, [req]⟩ := by
  unfold fetchRaw
  simp [h, hg]

theorem fetchRaw_indexError (gw : AttrGateway) (a : Artist) (key : String) (req : AttrRequest)
    (path : List String) (u : Bool) (resp : Value) (e : Err) (hg : gw req = .ok resp)
    (hi : indexPath resp path = .error e)
    (h : (u && cacheContains a.cache key) = false) :
    fetchRaw gw a key req path u = ⟨.error e, a, [req]⟩ := by
  unfold fetchRaw
  simp [h, hg, hi]

theorem fetchRaw_store (gw : AttrGateway) (a : Artist) (key : String) (req : AttrRequest)
    (path : List String) (u : Bool) (resp raw : Value) (hg : gw req = .ok resp)
    (hi : indexPath resp path = .ok raw)
    (h : (u && cacheContains a.cache key) = false) :
    fetchRaw gw a key req path u
      = ⟨.ok raw, { a with cache := cacheSet a.cache key raw }, [req]⟩ := by
  unfold fetchRaw
  simp [h, hg, hi, kvLookup_cacheSet]

theorem fetchRaw_contains (gw : AttrGateway) (a : Artist) (key : String) (req : AttrRequest)
    (path : List String) (u : Bool) (k : String) :
    cacheContains (fetchRaw gw a key req path u).artist.cache k
      = (cacheContains a.cache k || (storedB gw a.cache key req path u && decide (k = key))) := by
  by_cases h : (u && cacheContains a.cache key) = true
  · rw [Bool.and_eq_true] at h
    obtain ⟨hu, hc⟩ := h
    obtain ⟨w, hw⟩ := Option.isSome_iff_exists.mp hc
    subst hu
    rw [fetchRaw_hit gw a key req path w hw]
    simp [storedB, cacheContains, hw]
  · rw [Bool.not_eq_true] at h
    cases hg : gw req with
    | error e =>
        rw [fetchRaw_gwError gw a key req path u e hg h]
        simp [storedB, h, hg]
    | ok resp =>
        cases hi : indexPath resp path with
        | error e =>
            rw [fetchRaw_indexError gw a key req path u resp e hg hi h]
            simp [storedB, h, hg, hi]
        | ok raw =>
            rw [fetchRaw_store gw a key req path u resp raw hg hi h]
            simp [storedB, h, hg, hi, cacheContains_cacheSet]

theorem fetchRaw_result_lookup (gw : AttrGateway) (a : Artist) (key : String)
    (req : AttrRequest) (path : List String) (u : Bool) (v : Value)
    (hres : (fetchRaw gw a key req path u).result = .ok v) :
    kvLookup (fetchRaw gw a key req path u).artist.cache key = some v := by
  by_cases h : (u && cacheContains a.cache key) = true
  · rw [Bool.and_eq_true] at h
    obtain ⟨hu, hc⟩ := h
    obtain ⟨w, hw⟩ := Option.isSome_iff_exists.mp hc
    subst hu
    rw [fetchRaw_hit gw a key req path w hw] at hres ⊢
    simp at hres
    rw [hw, hres]
  · rw [Bool.not_eq_true] at h
    cases hg : gw req with
    | error e =>
        rw [fetchRaw_gwError gw a key req path u e hg h] at hres
        simp at hres
    | ok resp =>
        cases hi : indexPath resp path with
        | error e =>
            rw [fetchRaw_indexError gw a key req path u resp e hg hi h] at hres
            simp at hres
        | ok raw =>
            rw [fetchRaw_store gw a key req path u resp raw hg hi h] at hres ⊢
            simp at hres
            simp [kvLookup_cacheSet, hres]

theorem fetchRaw_idem (gw g2 : AttrGateway) (a : Artist) (key : String)
    (req req2 : AttrRequest) (path path2 : List String) (v : Value)
    (h : (fetchRaw gw a key req path true).result = .ok v) :
    fetchRaw g2 (fetchRaw gw a key req path true).artist key req2 path2 true
      = ⟨.ok v, (fetchRaw gw a key req path true).artist, []⟩ :=
  fetchRaw_hit g2 _ key req2 path2 v (fetchRaw_result_lookup gw a key req path true v h)

theorem fetchRaw_calls_fetch (gw : AttrGateway) (a : Artist) (key : String)
    (req : AttrRequest) (path : List String) :
    (fetchRaw gw a key req path false).calls = [req] := by
  have h : (false && cacheContains a.cache key) = false := by simp
  cases hg : gw req with
  | error e => rw [fetchRaw_gwError gw a key req path false e hg h]
  | ok resp =>
      cases hi : indexPath resp path with
      | error e => rw [fetchRaw_indexError gw a key req path false resp e hg hi h]
      | ok raw => rw [fetchRaw_store gw a key req path false resp raw hg hi h]

theorem fetchRaw_overwrites (gw : AttrGateway) (a : Artist) (key : String) (req : AttrRequest)
    (path : List String) (resp raw : Value) (hg : gw req = .ok resp)
    (hi : indexPath resp path = .ok raw) :
    kvLookup (fetchRaw gw a key req path false).artist.cache key = some raw := by
  rw [fetchRaw_store gw a key req path false resp raw hg hi (by simp)]
  simp [kvLookup_cacheSet]

theorem foreign_hit (gw : AttrGateway) (a : Artist) (idspace : String)
    (h : cacheContains a.cache idspace = true) :
    get_foreign_id gw a idspace true
      = ⟨.ok ((kvLookup a.cache idspace).getD .null), a, []⟩ := by
  unfold get_foreign_id
  simp [h]

theorem foreign_gwError (gw : AttrGateway) (a : Artist) (idspace : String) (u : Bool)
    (e : String)
    (hg : gw ⟨a.id, "profile", [("bucket", .strList ["id:" ++ idspace])]⟩ = .error e)
    (h : (u && cacheContains a.cache idspace) = false) :
    get_foreign_id gw a idspace u
      = ⟨.error (.gateway e), a,
          [⟨a.id, "profile", [("bucket", .strList ["id:" ++ idspace])]⟩]⟩ := by
  unfold get_foreign_id
  simp [h, hg]

theorem foreign_artistError (gw : AttrGateway) (a : Artist) (idspace : String) (u : Bool)
    (resp : Value) (e : Err)
    (hg : gw ⟨a.id, "profile", [("bucket", .strList ["id:" ++ idspace])]⟩ = .ok resp)
    (ho : objIndex resp "artist" = .error e)
    (h : (u && cacheContains a.cache idspace) = false) :
    get_foreign_id gw a idspace u
      = ⟨.error e, a, [⟨a.id, "profile", [("bucket", .strList ["id:" ++ idspace])]⟩]⟩ := by
  unfold get_foreign_id
  simp [h, hg, ho]

theorem foreign_badVal (gw : AttrGateway) (a : Artist) (idspace : String) (u : Bool)
    (resp val : Value)
    (hg : gw ⟨a.id, "profile", [("bucket", .strList ["id:" ++ idspace])]⟩ = .ok resp)
    (ho : objIndex resp "artist" = .ok val) (hv : isObjV val = false)
    (h : (u && cacheContains a.cache idspace) = false) :
    get_foreign_id gw a idspace u
      = ⟨.error .typeError, a,
          [⟨a.id, "profile", [("bucket", .strList ["id:" ++ idspace])]⟩]⟩ := by
  unfold get_foreign_id
  cases val with
  | obj kvs => simp [isObjV] at hv
  | null => simp [h, hg, ho]
  | str s => simp [h, hg, ho]
  | num q => simp [h, hg, ho]
  | arr xs => simp [h, hg, ho]

theorem foreign_store (gw : AttrGateway) (a : Artist) (idspace : String) (u : Bool)
    (resp : Value) (kvs : List (String × Value))
    (hg : gw ⟨a.id, "profile", [("bucket", .strList ["id:" ++ idspace])]⟩ = .ok resp)
    (ho : objIndex resp "artist" = .ok (.obj kvs))
    (h : (u && cacheContains a.cache idspace) = false) :
    get_foreign_id gw a idspace u
      = ⟨.ok ((kvLookup kvs idspace).getD .null),
          { a with cache := cacheSet a.cache idspace ((kvLookup kvs idspace).getD .null) },
          [⟨a.id, "profile", [("bucket", .strList ["id:" ++ idspace])]⟩]⟩ := by
  unfold get_foreign_id
  simp [h, hg, ho, kvLookup_cacheSet]

theorem foreign_contains (gw : AttrGateway) (a : Artist) (idspace : String) (u : Bool)
    (k : String) :
    cacheContains (get_foreign_id gw a idspace u).artist.cache k
      = (cacheContains a.cache k || (foreignStoredB gw a idspace u && decide (k = idspace))) := by
  by_cases h : (u && cacheContains a.cache idspace) = true
  · unfold get_foreign_id foreignStoredB
    simp [h]
  · rw [Bool.not_eq_true] at h
    cases hg : gw ⟨a.id, "profile", [("bucket", .strList ["id:" ++ idspace])]⟩ with
    | error e =>
        rw [foreign_gwError gw a idspace u e hg h]
        simp [foreignStoredB, h, hg]
    | ok resp =>
        cases ho : objIndex resp "artist" with
        | error e =>
            rw [foreign_artistError gw a idspace u resp e hg ho h]
            simp [foreignStoredB, h, hg, ho]
        | ok val =>
            cases val with
            | obj kvs =>
                rw [foreign_store gw a idspace u resp kvs hg ho h]
                simp [foreignStoredB, h, hg, ho, isObjV, cacheContains_cacheSet]
            | null =>
                rw [foreign_badVal gw a idspace u resp _ hg ho rfl h]
                simp [foreignStoredB, h, hg, ho, isObjV]
            | str s =>
                rw [foreign_badVal gw a idspace u resp _ hg ho rfl h]
                simp [foreignStoredB, h, hg, ho, isObjV]
            | num q =>
                rw [foreign_badVal gw a idspace u resp _ hg ho rfl h]
                simp [foreignStoredB, h, hg, ho, isObjV]
            | arr xs =>
                rw [foreign_badVal gw a idspace u resp _ hg ho rfl h]
                simp [foreignStoredB, h, hg, ho, isObjV]

theorem foreign_calls_fetch (gw : AttrGateway) (a : Artist) (idspace : String) :
    (get_foreign_id gw a idspace false).calls
      = [⟨a.id, "profile", [("bucket", .strList ["id:" ++ idspace])]⟩] := by
  have h : (false && cacheContains a.cache idspace) = false := by simp
  cases hg : gw ⟨a.id, "profile", [("bucket", .strList ["id:" ++ idspace])]⟩ with
  | error e => rw [foreign_gwError gw a idspace false e hg h]
  | ok resp =>
      cases ho : objIndex resp "artist" with
      | error e => rw [foreign_artistError gw a idspace false resp e hg ho h]
      | ok val =>
          cases val with
          | obj kvs => rw [foreign_store gw a idspace false resp kvs hg ho h]
          | null => rw [foreign_badVal gw a idspace false resp _ hg ho rfl h]
          | str s => rw [foreign_badVal gw a idspace false resp _ hg ho rfl h]
          | num q => rw [foreign_badVal gw a idspace false resp _ hg ho rfl h]
          | arr xs => rw [foreign_badVal gw a idspace false resp _ hg ho rfl h]

theorem foreign_idem (gw g2 : AttrGateway) (a : Artist) (idspace : String) (v : Value)
    (hres : (get_foreign_id gw a idspace true).result = .ok v) :
    get_foreign_id g2 (get_foreign_id gw a idspace true).artist idspace true
      = ⟨.ok v, (get_foreign_id gw a idspace true).artist, []⟩ := by
  by_cases hc : cacheContains a.cache idspace = true
  · rw [foreign_hit gw a idspace hc] at hres ⊢
    simp at hres
    rw [foreign_hit g2 a idspace hc, hres]
  · have h : (true && cacheContains a.cache idspace) = false := by
      simp [Bool.not_eq_true] at hc
      simp [hc]
    cases hg : gw ⟨a.id, "profile", [("bucket", .strList ["id:" ++ idspace])]⟩ with
    | error e =>
        rw [foreign_gwError gw a idspace true e hg h] at hres
        simp at hres
    | ok resp =>
        cases ho : objIndex resp "artist" with
        | error e =>
            rw [foreign_artistError gw a idspace true resp e hg ho h] at hres
            simp at hres
        | ok val =>
            cases val with
            | obj kvs =>
                rw [foreign_store gw a idspace true resp kvs hg ho h] at hres ⊢
                simp at hres
                have hc2 : cacheContains
                    (cacheSet a.cache idspace ((kvLookup kvs idspace).getD .null)) idspace
                      = true := by
                  simp [cacheContains, kvLookup_cacheSet]
                rw [foreign_hit g2 _ idspace hc2]
                simp [kvLookup_cacheSet, hres]
            | null =>
                rw [foreign_badVal gw a idspace true resp _ hg ho rfl h] at hres
                simp at hres
            | str s =>
                rw [foreign_badVal gw a idspace true resp _ hg ho rfl h] at hres
                simp at hres
            | num q =>
                rw [foreign_badVal gw a idspace true resp _ hg ho rfl h] at hres
                simp at hres
            | arr xs =>
                rw [foreign_badVal gw a idspace true resp _ hg ho rfl h] at hres
                simp at hres

theorem mapOutcome_artist {α : Type} (f : Value → Except Err α) (o : Outcome Value) :
    (mapOutcome f o).artist = o.artist := rfl

theorem mapOutcome_calls {α : Type} (f : Value → Except Err α) (o : Outcome Value) :
    (mapOutcome f o).calls = o.calls := rfl

theorem mapOutcome_error {α : Type} (f : Value → Except Err α) (e : Err) (a : Artist)
    (cs : List AttrRequest) :
    mapOutcome f ⟨.error e, a, cs⟩ = ⟨.error e, a, cs⟩ := rfl

theorem mapOutcome_result_ok {α : Type} (f : Value → Except Err α) (o : Outcome Value) (b : α)
    (h : (mapOutcome f o).result = .ok b) :
    ∃ v, o.result = .ok v ∧ f v = .ok b := by
  revert h
  unfold mapOutcome
  cases hr : o.result with
  | error e => simp
  | ok v =>
      intro h
      exact ⟨v, rfl, h⟩

theorem mapOutcome_fetch_idem {α : Type} (f : Value → Except Err α) (gw g2 : AttrGateway)
    (a : Artist) (key : String) (req req2 : AttrRequest) (path path2 : List String) (v : α)
    (h : (mapOutcome f (fetchRaw gw a key req path true)).result = .ok v) :
    mapOutcome f (fetchRaw g2 (fetchRaw gw a key req path true).artist key req2 path2 true)
      = ⟨.ok v, (fetchRaw gw a key req path true).artist, []⟩ := by
  obtain ⟨raw, hraw, hf⟩ := mapOutcome_result_ok f _ v h
  rw [fetchRaw_idem gw g2 a key req req2 path path2 raw hraw]
  show (⟨f raw, _, []⟩ : Outcome α) = _
  rw [hf]

theorem step_contains (e : Ev) (a : Artist) (k : String) :
    cacheContains (e.step a).cache k
      = (cacheContains a.cache k || (e.stores a && decide (k = e.key))) := by
  cases e with
  | hotttnesss gw u => exact fetchRaw_contains gw a "hotttnesss" _ _ u k
  | audio gw r s u => exact fetchRaw_contains gw a "audio" _ _ u k
  | biographies gw r s l u => exact fetchRaw_contains gw a "biographies" _ _ u k
  | blogs gw r s u => exact fetchRaw_contains gw a "blogs" _ _ u k
  | familiarity gw u => exact fetchRaw_contains gw a "familiarity" _ _ u k
  | images gw r s l u => exact fetchRaw_contains gw a "images" _ _ u k
  | news gw r s u => exact fetchRaw_contains gw a "news" _ _ u k
  | reviews gw r s u => exact fetchRaw_contains gw a "reviews" _ _ u k
  | similar gw r s f1 f2 f3 f4 b l u => exact fetchRaw_contains gw a "similar" _ _ u k
  | urls gw u => exact fetchRaw_contains gw a "urls" _ _ u k
  | video gw r s u => exact fetchRaw_contains gw a "video" _ _ u k
  | foreignId gw ns u => exact foreign_contains gw a ns u k

theorem contains_runEvs (tr : List Ev) (a : Artist) (k : String) :
    cacheContains (runEvs a tr).cache k = (cacheContains a.cache k || storedInB a tr k) := by
  induction tr generalizing a with
  | nil => simp [runEvs, storedInB]
  | cons e tr ih =>
      show cacheContains (runEvs (e.step a) tr).cache k = _
      rw [ih (e.step a), step_contains]
      simp [storedInB, Bool.or_assoc]

/-- C4 counterexample: a single successful call with `cache=False` populates
`cache['hotttnesss']`, yet no call with caching enabled ever succeeded, so
the claimed "if and only if" fails on this history. -/
theorem claim_C4_counterexample :
    cacheContains (runEvs artist0 [Ev.hotttnesss gwHot false]).cache "hotttnesss" = true
      ∧ storedWithCacheOn artist0 [Ev.hotttnesss gwHot false] "hotttnesss" = false :=
  ⟨rfl, rfl⟩

/-- C4 (amended): starting from an empty cache, `cache[attr]` exists after a
history of accessor calls if and only if some call in the history actually
performed its remote fetch for that key and the fetch (gateway answer plus
response navigation) succeeded — regardless of the `cache` flag it was
called with. -/
theorem claim_C4 (i : String) (n : Option String) (tr : List Ev) (k : String) :
    cacheContains (runEvs ⟨i, n, []⟩ tr).cache k = storedInB ⟨i, n, []⟩ tr k := by
  rw [contains_runEvs]
  simp [cacheContains, kvLookup]

/-- C9: a falsy (zero) supplied value for any of the optional numeric filters
`max_familiarity`, `min_familiarity`, `max_hotttnesss`, `min_hotttnesss` of
`search`, `similar`, and `Artist.get_similar` is omitted from the outgoing
request parameters exactly as if the filter had not been supplied. -/
theorem claim_C9 :
    (∀ (n d : Option String) (r : Int) (b : Option (List String)) (l x s : Bool)
        (srt : Option String) (f2 f3 f4 : Option Rat),
        search_kwargs n d r b l x s srt (some 0) f2 f3 f4
          = search_kwargs n d r b l x s srt none f2 f3 f4)
  ∧ (∀ (n d : Option String) (r : Int) (b : Option (List String)) (l x s : Bool)
        (srt : Option String) (f1 f3 f4 : Option Rat),
        search_kwargs n d r b l x s srt f1 (some 0) f3 f4
          = search_kwargs n d r b l x s srt f1 none f3 f4)
  ∧ (∀ (n d : Option String) (r : Int) (b : Option (List String)) (l x s : Bool)
        (srt : Option String) (f1 f2 f4 : Option Rat),
        search_kwargs n d r b l x s srt f1 f2 (some 0) f4
          = search_kwargs n d r b l x s srt f1 f2 none f4)
  ∧ (∀ (n d : Option String) (r : Int) (b : Option (List String)) (l x s : Bool)
        (srt : Option String) (f1 f2 f3 : Option Rat),
        search_kwargs n d r b l x s srt f1 f2 f3 (some 0)
          = search_kwargs n d r b l x s srt f1 f2 f3 none)
  ∧ (∀ (nm ids : Option StrOrList) (st r : Int) (b : Option (List String)) (l : Bool)
        (f2 f3 f4 : Option Rat),
        similar_kwargs nm ids st r b l (some 0) f2 f3 f4
          = similar_kwargs nm ids st r b l none f2 f3 f4)
  ∧ (∀ (nm ids : Option StrOrList) (st r : Int) (b : Option (List String)) (l : Bool)
        (f1 f3 f4 : Option Rat),
        similar_kwargs nm ids st r b l f1 (some 0) f3 f4
          = similar_kwargs nm ids st r b l f1 none f3 f4)
  ∧ (∀ (nm ids : Option StrOrList) (st r : Int) (b : Option (List String)) (l : Bool)
        (f1 f2 f4 : Option Rat),
        similar_kwargs nm ids st r b l f1 f2 (some 0) f4
          = similar_kwargs nm ids st r b l f1 f2 none f4)
  ∧ (∀ (nm ids : Option StrOrList) (st r : Int) (b : Option (List String)) (l : Bool)
        (f1 f2 f3 : Option Rat),
        similar_kwargs nm ids st r b l f1 f2 f3 (some 0)
          = similar_kwargs nm ids st r b l f1 f2 f3 none)
  ∧ (∀ (f2 f3 f4 : Option Rat) (b : Option (List String)) (l : Bool),
        get_similar_kwargs (some 0) f2 f3 f4 b l = get_similar_kwargs none f2 f3 f4 b l)
  ∧ (∀ (f1 f3 f4 : Option Rat) (b : Option (List String)) (l : Bool),
        get_similar_kwargs f1 (some 0) f3 f4 b l = get_similar_kwargs f1 none f3 f4 b l)
  ∧ (∀ (f1 f2 f4 : Option Rat) (b : Option (List String)) (l : Bool),
        get_similar_kwargs f1 f2 (some 0) f4 b l = get_similar_kwargs f1 f2 none f4 b l)
  ∧ (∀ (f1 f2 f3 : Option Rat) (b : Option (List String)) (l : Bool),
        get_similar_kwargs f1 f2 f3 (some 0) b l = get_similar_kwargs f1 f2 f3 none b l) := by
  refine ⟨?_, ?_, ?_, ?_, ?_, ?_, ?_, ?_, ?_, ?_, ?_, ?_⟩ <;>
    · intros
      simp [search_kwargs, similar_kwargs, get_similar_kwargs, addNum]

/-- C10: the `license` parameter of `get_biographies` and `get_images` is
never forwarded to the gateway and has no effect: with all other arguments
and the prior state equal, the whole observable outcome (result, entity
state, outgoing requests) is identical for any two license values. -/
theorem claim_C10 :
    (∀ (gw : AttrGateway) (a : Artist) (r s : Int) (l1 l2 : String) (u : Bool),
        get_biographies gw a r s l1 u = get_biographies gw a r s l2 u)
  ∧ (∀ (gw : AttrGateway) (a : Artist) (r s : Int) (l1 l2 : String) (u : Bool),
        get_images gw a r s l1 u = get_images gw a r s l2 u) :=
  ⟨fun _ _ _ _ _ _ _ => rfl, fun _ _ _ _ _ _ _ => rfl⟩

theorem kvLookup_append {α : Type} (l1 l2 : List (String × α)) (k : String) :
    kvLookup (l1 ++ l2) k
      = match kvLookup l1 k with
        | some v => some v
        | none => kvLookup l2 k := by
  induction l1 with
  | nil => simp [kvLookup]
  | cons hd t ih =>
      obtain ⟨x, b⟩ := hd
      by_cases h : x = k <;> simp [kvLookup, h, ih]

theorem kvLookup_addStr_ne (k k2 : String) (v : Option String) (h : k2 ≠ k) :
    kvLookup (addStr k2 v) k = none := by
  cases v with
  | none => rfl
  | some s => by_cases hs : s = "" <;> simp [addStr, kvLookup, hs, h]

theorem kvLookup_addNum_ne (k k2 : String) (v : Option Rat) (h : k2 ≠ k) :
    kvLookup (addNum k2 v) k = none := by
  cases v with
  | none => rfl
  | some q => by_cases hq : q = 0 <;> simp [addNum, kvLookup, hq, h]

theorem kvLookup_addInt_ne (k k2 : String) (n : Int) (h : k2 ≠ k) :
    kvLookup (addInt k2 n) k = none := by
  by_cases hn : n = 0 <;> simp [addInt, kvLookup, hn, h]

theorem kvLookup_addList_ne (k k2 : String) (xs : List String) (h : k2 ≠ k) :
    kvLookup (addList k2 xs) k = none := by
  by_cases hx : xs = [] <;> simp [addList, kvLookup, hx, h]

theorem kvLookup_addFlag_ne (k k2 : String) (b : Bool) (h : k2 ≠ k) :
    kvLookup (addFlag k2 b) k = none := by
  cases b <;> simp [addFlag, kvLookup, h]

theorem kvLookup_addIds_ne (k k2 : String) (v : Option StrOrList) (h : k2 ≠ k) :
    kvLookup (addIds k2 v) k = none := by
  cases v with
  | none => rfl
  | some s => by_cases ht : s.truthy = true <;> simp [addIds, kvLookup, ht, h]

theorem kvLookup_addFlag_self (k : String) (b : Bool) :
    kvLookup (addFlag k b) k = if b then some (.str "true") else none := by
  cases b <;> simp [addFlag, kvLookup]

/-- C7: in `search`, the free function `similar`, `top_hottt`, and the
accessor `Artist.get_similar`, each of the boolean flags `limit`, `exact`,
`sounds_like` contributes an outgoing request entry exactly when the flag is
true, and then with the literal string value `"true"`; a false flag
contributes nothing (in particular the string `"false"` is never sent). -/
theorem claim_C7 :
    (∀ (n d : Option String) (r : Int) (b : Option (List String)) (l x s : Bool)
        (srt : Option String) (f1 f2 f3 f4 : Option Rat),
        kvLookup (search_kwargs n d r b l x s srt f1 f2 f3 f4) "limit"
          = (if l then some (.str "true") else none))
  ∧ (∀ (n d : Option String) (r : Int) (b : Option (List String)) (l x s : Bool)
        (srt : Option String) (f1 f2 f3 f4 : Option Rat),
        kvLookup (search_kwargs n d r b l x s srt f1 f2 f3 f4) "exact"
          = (if x then some (.str "true") else none))
  ∧ (∀ (n d : Option String) (r : Int) (b : Option (List String)) (l x s : Bool)
        (srt : Option String) (f1 f2 f3 f4 : Option Rat),
        kvLookup (search_kwargs n d r b l x s srt f1 f2 f3 f4) "sounds_like"
          = (if s then some (.str "true") else none))
  ∧ (∀ (st r : Int) (b : Option (List String)) (l : Bool),
        kvLookup (top_hottt_kwargs st r b l) "limit"
          = (if l then some (.str "true") else none))
  ∧ (∀ (nm ids : Option StrOrList) (st r : Int) (b : Option (List String)) (l : Bool)
        (f1 f2 f3 f4 : Option Rat),
        kvLookup (similar_kwargs nm ids st r b l f1 f2 f3 f4) "limit"
          = (if l then some (.str "true") else none))
  ∧ (∀ (r st : Int) (f1 f2 f3 f4 : Option Rat) (b : Option (List String)) (l : Bool),
        kvLookup (rsParams r st ++ get_similar_kwargs f1 f2 f3 f4 b l) "limit"
          = (if l then some (.str "true") else none)) := by
  refine ⟨fun n d r b l x s srt f1 f2 f3 f4 => ?_, fun n d r b l x s srt f1 f2 f3 f4 => ?_,
    fun n d r b l x s srt f1 f2 f3 f4 => ?_, fun st r b l => ?_,
    fun nm ids st r b l f1 f2 f3 f4 => ?_, fun r st f1 f2 f3 f4 b l => ?_⟩
  · cases l <;>
      simp [search_kwargs, kvLookup, kvLookup_append, kvLookup_addStr_ne, kvLookup_addNum_ne,
        kvLookup_addInt_ne, kvLookup_addList_ne, kvLookup_addFlag_ne, kvLookup_addIds_ne,
        kvLookup_addFlag_self]
  · cases x <;>
      simp [search_kwargs, kvLookup, kvLookup_append, kvLookup_addStr_ne, kvLookup_addNum_ne,
        kvLookup_addInt_ne, kvLookup_addList_ne, kvLookup_addFlag_ne, kvLookup_addIds_ne,
        kvLookup_addFlag_self]
  · cases s <;>
      simp [search_kwargs, kvLookup, kvLookup_append, kvLookup_addStr_ne, kvLookup_addNum_ne,
        kvLookup_addInt_ne, kvLookup_addList_ne, kvLookup_addFlag_ne, kvLookup_addIds_ne,
        kvLookup_addFlag_self]
  · cases l <;>
      simp [top_hottt_kwargs, kvLookup, kvLookup_append, kvLookup_addNum_ne, kvLookup_addInt_ne,
        kvLookup_addList_ne, kvLookup_addFlag_ne, kvLookup_addIds_ne, kvLookup_addFlag_self]
  · cases l <;>
      simp [similar_kwargs, kvLookup, kvLookup_append, kvLookup_addNum_ne, kvLookup_addInt_ne,
        kvLookup_addList_ne, kvLookup_addFlag_ne, kvLookup_addIds_ne, kvLookup_addFlag_self]
  · cases l <;>
      simp [get_similar_kwargs, rsParams, kvLookup, kvLookup_append, kvLookup_addNum_ne,
        kvLookup_addInt_ne, kvLookup_addList_ne, kvLookup_addFlag_ne, kvLookup_addFlag_self]

theorem queryCall_calls (gw : CallmGateway) (p : String) (ps : Params) :
    (queryCall gw p ps).calls = [⟨p, ps⟩] := by
  simp only [queryCall]
  split
  · rfl
  · split
    · rfl
    · split <;> first | rfl | (split <;> rfl)

/-- C8 counterexample: for the empty identifier string, the scalar form is
falsy (the `id` entry is omitted) while the one-element list form is truthy
(the `id` entry is sent), so the two outgoing requests differ. -/
theorem claim_C8_counterexample :
    (similar gwQBoom none (some (.one "")) 0 15 none false none none none none).calls
      ≠ (similar gwQBoom none (some (.many [""])) 0 15 none false none none none none).calls := by
  decide

/-- C8 (amended): for every nonempty identifier string `X`, the free function
`similar` called with `ids` as the scalar `X` and with `ids` as the
one-element list `[X]` issues identical outgoing requests; likewise for
`names`. (The claim fails for the empty string, whose scalar form is falsy.) -/
theorem claim_C8 (x : String) (hx : x ≠ "") :
    (∀ (gw : CallmGateway) (nm : Option StrOrList) (st r : Int) (b : Option (List String))
        (l : Bool) (f1 f2 f3 f4 : Option Rat),
        (similar gw nm (some (.one x)) st r b l f1 f2 f3 f4).calls
          = (similar gw nm (some (.many [x])) st r b l f1 f2 f3 f4).calls)
  ∧ (∀ (gw : CallmGateway) (ids : Option StrOrList) (st r : Int) (b : Option (List String))
        (l : Bool) (f1 f2 f3 f4 : Option Rat),
        (similar gw (some (.one x)) ids st r b l f1 f2 f3 f4).calls
          = (similar gw (some (.many [x])) ids st r b l f1 f2 f3 f4).calls) := by
  constructor <;>
    · intros
      simp [similar, queryCall_calls, similar_kwargs, addIds, StrOrList.truthy,
        StrOrList.toList, hx]

/-- Closed instance of C8's amended theorem at the identifier `"ARX"`. -/
theorem claim_C8_witness :
    (similar gwQBoom none (some (.one "ARX")) 0 15 none false none none none none).calls
      = (similar gwQBoom none (some (.many ["ARX"])) 0 15 none false none none none none).calls :=
  (claim_C8 "ARX" (by decide)).1 gwQBoom none 0 15 none false none none none none

/-- C1: for every lazy attribute accessor, once a call with `cache=True` has
succeeded, a second call with `cache=True` returns equal data, leaves the
entity state unchanged, and makes no gateway invocation at all (the second
call's gateway may even behave arbitrarily differently). -/
theorem claim_C1 :
    (∀ (gw g2 : AttrGateway) (a : Artist) (v : Value),
        (get_hotttnesss gw a true).result = .ok v →
        get_hotttnesss g2 (get_hotttnesss gw a true).artist true
          = ⟨.ok v, (get_hotttnesss gw a true).artist, []⟩)
  ∧ (∀ (gw g2 : AttrGateway) (a : Artist) (r s : Int) (v : List Result),
        (get_audio gw a r s true).result = .ok v →
        get_audio g2 (get_audio gw a r s true).artist r s true
          = ⟨.ok v, (get_audio gw a r s true).artist, []⟩)
  ∧ (∀ (gw g2 : AttrGateway) (a : Artist) (r s : Int) (l : String) (v : List Result),
        (get_biographies gw a r s l true).result = .ok v →
        get_biographies g2 (get_biographies gw a r s l true).artist r s l true
          = ⟨.ok v, (get_biographies gw a r s l true).artist, []⟩)
  ∧ (∀ (gw g2 : AttrGateway) (a : Artist) (r s : Int) (v : List Result),
        (get_blogs gw a r s true).result = .ok v →
        get_blogs g2 (get_blogs gw a r s true).artist r s true
          = ⟨.ok v, (get_blogs gw a r s true).artist, []⟩)
  ∧ (∀ (gw g2 : AttrGateway) (a : Artist) (v : Value),
        (get_familiarity gw a true).result = .ok v →
        get_familiarity g2 (get_familiarity gw a true).artist true
          = ⟨.ok v, (get_familiarity gw a true).artist, []⟩)
  ∧ (∀ (gw g2 : AttrGateway) (a : Artist) (r s : Int) (l : String) (v : List Result),
        (get_images gw a r s l true).result = .ok v →
        get_images g2 (get_images gw a r s l true).artist r s l true
          = ⟨.ok v, (get_images gw a r s l true).artist, []⟩)
  ∧ (∀ (gw g2 : AttrGateway) (a : Artist) (r s : Int) (v : List Result),
        (get_news gw a r s true).result = .ok v →
        get_news g2 (get_news gw a r s true).artist r s true
          = ⟨.ok v, (get_news gw a r s true).artist, []⟩)
  ∧ (∀ (gw g2 : AttrGateway) (a : Artist) (r s : Int) (v : List Result),
        (get_reviews gw a r s true).result = .ok v →
        get_reviews g2 (get_reviews gw a r s true).artist r s true
          = ⟨.ok v, (get_reviews gw a r s true).artist, []⟩)
  ∧ (∀ (gw g2 : AttrGateway) (a : Artist) (r s : Int) (f1 f2 f3 f4 : Option Rat)
        (b : Option (List String)) (l : Bool) (v : List Artist),
        (get_similar gw a r s f1 f2 f3 f4 b l true).result = .ok v →
        get_similar g2 (get_similar gw a r s f1 f2 f3 f4 b l true).artist r s f1 f2 f3 f4 b l
            true
          = ⟨.ok v, (get_similar gw a r s f1 f2 f3 f4 b l true).artist, []⟩)
  ∧ (∀ (gw g2 : AttrGateway) (a : Artist) (v : Result),
        (get_urls gw a true).result = .ok v →
        get_urls g2 (get_urls gw a true).artist true
          = ⟨.ok v, (get_urls gw a true).artist, []⟩)
  ∧ (∀ (gw g2 : AttrGateway) (a : Artist) (r s : Int) (v : List Result),
        (get_video gw a r s true).result = .ok v →
        get_video g2 (get_video gw a r s true).artist r s true
          = ⟨.ok v, (get_video gw a r s true).artist, []⟩)
  ∧ (∀ (gw g2 : AttrGateway) (a : Artist) (ns : String) (v : Value),
        (get_foreign_id gw a ns true).result = .ok v →
        get_foreign_id g2 (get_foreign_id gw a ns true).artist ns true
          = ⟨.ok v, (get_foreign_id gw a ns true).artist, []⟩) := by
  refine ⟨?_, ?_, ?_, ?_, ?_, ?_, ?_, ?_, ?_, ?_, ?_, ?_⟩
  · exact fun gw g2 a v h => fetchRaw_idem gw g2 a "hotttnesss" _ _ _ _ v h
  · exact fun gw g2 a r s v h =>
      mapOutcome_fetch_idem (adaptResults "audio") gw g2 a "audio" _ _ _ _ v h
  · exact fun gw g2 a r s l v h =>
      mapOutcome_fetch_idem (adaptResults "biography") gw g2 a "biographies" _ _ _ _ v h
  · exact fun gw g2 a r s v h =>
      mapOutcome_fetch_idem (adaptResults "blogs") gw g2 a "blogs" _ _ _ _ v h
  · exact fun gw g2 a v h => fetchRaw_idem gw g2 a "familiarity" _ _ _ _ v h
  · exact fun gw g2 a r s l v h =>
      mapOutcome_fetch_idem (adaptResults "image") gw g2 a "images" _ _ _ _ v h
  · exact fun gw g2 a r s v h =>
      mapOutcome_fetch_idem (adaptResults "news") gw g2 a "news" _ _ _ _ v h
  · exact fun gw g2 a r s v h =>
      mapOutcome_fetch_idem (adaptResults "review") gw g2 a "reviews" _ _ _ _ v h
  · exact fun gw g2 a r s f1 f2 f3 f4 b l v h =>
      mapOutcome_fetch_idem adaptArtists gw g2 a "similar" _ _ _ _ v h
  · exact fun gw g2 a v h =>
      mapOutcome_fetch_idem (fun w => .ok (Result.mk "urls" w)) gw g2 a "urls" _ _ _ _ v h
  · exact fun gw g2 a r s v h =>
      mapOutcome_fetch_idem (adaptResults "video") gw g2 a "video" _ _ _ _ v h
  · exact fun gw g2 a ns v h => foreign_idem gw g2 a ns v h

/-- Closed instance of C1 for `get_hotttnesss`: after one successful cached
call against `gwHot`, the repeat call returns the same value with no
gateway invocation. -/
theorem claim_C1_witness :
    get_hotttnesss gwHot (get_hotttnesss gwHot artist0 true).artist true
      = ⟨.ok (.num 1), (get_hotttnesss gwHot artist0 true).artist, []⟩ :=
  claim_C1.1 gwHot gwHot artist0 (.num 1) rfl

theorem foreign_overwrites (gw : AttrGateway) (a : Artist) (ns : String) (resp : Value)
    (kvs : List (String × Value))
    (hg : gw ⟨a.id, "profile", [("bucket", .strList ["id:" ++ ns])]⟩ = .ok resp)
    (ho : objIndex resp "artist" = .ok (.obj kvs)) :
    kvLookup (get_foreign_id gw a ns false).artist.cache ns
      = some ((kvLookup kvs ns).getD .null) := by
  rw [foreign_store gw a ns false resp kvs hg ho (by simp)]
  simp [kvLookup_cacheSet]

/-- C2: for every lazy attribute accessor, a call with `cache=False` issues
exactly one gateway invocation (even when the attribute is already cached,
for any prior cache state), and on a successful fetch the cache entry for
the attribute is overwritten with the newly extracted raw value. -/
theorem claim_C2 :
    ((∀ (gw : AttrGateway) (a : Artist),
        (get_hotttnesss gw a false).calls = [⟨a.id, "hotttnesss", []⟩])
      ∧ (∀ (gw : AttrGateway) (a : Artist) (resp raw : Value),
        gw ⟨a.id, "hotttnesss", []⟩ = .ok resp →
        indexPath resp ["artist", "hotttnesss"] = .ok raw →
        kvLookup (get_hotttnesss gw a false).artist.cache "hotttnesss" = some raw))
  ∧ ((∀ (gw : AttrGateway) (a : Artist) (r s : Int),
        (get_audio gw a r s false).calls = [⟨a.id, "audio", rsParams r s⟩])
      ∧ (∀ (gw : AttrGateway) (a : Artist) (r s : Int) (resp raw : Value),
        gw ⟨a.id, "audio", rsParams r s⟩ = .ok resp →
        indexPath resp ["audio"] = .ok raw →
        kvLookup (get_audio gw a r s false).artist.cache "audio" = some raw))
  ∧ ((∀ (gw : AttrGateway) (a : Artist) (r s : Int) (l : String),
        (get_biographies gw a r s l false).calls = [⟨a.id, "biographies", rsParams r s⟩])
      ∧ (∀ (gw : AttrGateway) (a : Artist) (r s : Int) (l : String) (resp raw : Value),
        gw ⟨a.id, "biographies", rsParams r s⟩ = .ok resp →
        indexPath resp ["biographies"] = .ok raw →
        kvLookup (get_biographies gw a r s l false).artist.cache "biographies" = some raw))
  ∧ ((∀ (gw : AttrGateway) (a : Artist) (r s : Int),
        (get_blogs gw a r s false).calls = [⟨a.id, "blogs", rsParams r s⟩])
      ∧ (∀ (gw : AttrGateway) (a : Artist) (r s : Int) (resp raw : Value),
        gw ⟨a.id, "blogs", rsParams r s⟩ = .ok resp →
        indexPath resp ["blogs"] = .ok raw →
        kvLookup (get_blogs gw a r s false).artist.cache "blogs" = some raw))
  ∧ ((∀ (gw : AttrGateway) (a : Artist),
        (get_familiarity gw a false).calls = [⟨a.id, "familiarity", []⟩])
      ∧ (∀ (gw : AttrGateway) (a : Artist) (resp raw : Value),
        gw ⟨a.id, "familiarity", []⟩ = .ok resp →
        indexPath resp ["artist", "familiarity"] = .ok raw →
        kvLookup (get_familiarity gw a false).artist.cache "familiarity" = some raw))
  ∧ ((∀ (gw : AttrGateway) (a : Artist) (r s : Int) (l : String),
        (get_images gw a r s l false).calls = [⟨a.id, "images", rsParams r s⟩])
      ∧ (∀ (gw : AttrGateway) (a : Artist) (r s : Int) (l : String) (resp raw : Value),
        gw ⟨a.id, "images", rsParams r s⟩ = .ok resp →
        indexPath resp ["images"] = .ok raw →
        kvLookup (get_images gw a r s l false).artist.cache "images" = some raw))
  ∧ ((∀ (gw : AttrGateway) (a : Artist) (r s : Int),
        (get_news gw a r s false).calls = [⟨a.id, "news", rsParams r s⟩])
      ∧ (∀ (gw : AttrGateway) (a : Artist) (r s : Int) (resp raw : Value),
        gw ⟨a.id, "news", rsParams r s⟩ = .ok resp →
        indexPath resp ["news"] = .ok raw →
        kvLookup (get_news gw a r s false).artist.cache "news" = some raw))
  ∧ ((∀ (gw : AttrGateway) (a : Artist) (r s : Int),
        (get_reviews gw a r s false).calls = [⟨a.id, "reviews", rsParams r s⟩])
      ∧ (∀ (gw : AttrGateway) (a : Artist) (r s : Int) (resp raw : Value),
        gw ⟨a.id, "reviews", rsParams r s⟩ = .ok resp →
        indexPath resp ["reviews"] = .ok raw →
        kvLookup (get_reviews gw a r s false).artist.cache "reviews" = some raw))
  ∧ ((∀ (gw : AttrGateway) (a : Artist) (r s : Int) (f1 f2 f3 f4 : Option Rat)
        (b : Option (List String)) (l : Bool),
        (get_similar gw a r s f1 f2 f3 f4 b l false).calls
          = [⟨a.id, "similar", rsParams r s ++ get_similar_kwargs f1 f2 f3 f4 b l⟩])
      ∧ (∀ (gw : AttrGateway) (a : Artist) (r s : Int) (f1 f2 f3 f4 : Option Rat)
        (b : Option (List String)) (l : Bool) (resp raw : Value),
        gw ⟨a.id, "similar", rsParams r s ++ get_similar_kwargs f1 f2 f3 f4 b l⟩ = .ok resp →
        indexPath resp ["artists"] = .ok raw →
        kvLookup (get_similar gw a r s f1 f2 f3 f4 b l false).artist.cache "similar"
          = some raw))
  ∧ ((∀ (gw : AttrGateway) (a : Artist),
        (get_urls gw a false).calls = [⟨a.id, "urls", []⟩])
      ∧ (∀ (gw : AttrGateway) (a : Artist) (resp raw : Value),
        gw ⟨a.id, "urls", []⟩ = .ok resp →
        indexPath resp ["urls"] = .ok raw →
        kvLookup (get_urls gw a false).artist.cache "urls" = some raw))
  ∧ ((∀ (gw : AttrGateway) (a : Artist) (r s : Int),
        (get_video gw a r s false).calls = [⟨a.id, "video", rsParams r s⟩])
      ∧ (∀ (gw : AttrGateway) (a : Artist) (r s : Int) (resp raw : Value),
        gw ⟨a.id, "video", rsParams r s⟩ = .ok resp →
        indexPath resp ["video"] = .ok raw →
        kvLookup (get_video gw a r s false).artist.cache "video" = some raw))
  ∧ ((∀ (gw : AttrGateway) (a : Artist) (ns : String),
        (get_foreign_id gw a ns false).calls
          = [⟨a.id, "profile", [("bucket", .strList ["id:" ++ ns])]⟩])
      ∧ (∀ (gw : AttrGateway) (a : Artist) (ns : String) (resp : Value)
        (kvs : List (String × Value)),
        gw ⟨a.id, "profile", [("bucket", .strList ["id:" ++ ns])]⟩ = .ok resp →
        objIndex resp "artist" = .ok (.obj kvs) →
        kvLookup (get_foreign_id gw a ns false).artist.cache ns
          = some ((kvLookup kvs ns).getD .null))) := by
  refine ⟨⟨?_, ?_⟩, ⟨?_, ?_⟩, ⟨?_, ?_⟩, ⟨?_, ?_⟩, ⟨?_, ?_⟩, ⟨?_, ?_⟩, ⟨?_, ?_⟩, ⟨?_, ?_⟩,
    ⟨?_, ?_⟩, ⟨?_, ?_⟩, ⟨?_, ?_⟩, ⟨?_, ?_⟩⟩
  · exact fun gw a => fetchRaw_calls_fetch gw a "hotttnesss" _ _
  · exact fun gw a resp raw hg hi => fetchRaw_overwrites gw a "hotttnesss" _ _ resp raw hg hi
  · exact fun gw a r s => fetchRaw_calls_fetch gw a "audio" _ _
  · exact fun gw a r s resp raw hg hi => fetchRaw_overwrites gw a "audio" _ _ resp raw hg hi
  · exact fun gw a r s l => fetchRaw_calls_fetch gw a "biographies" _ _
  · exact fun gw a r s l resp raw hg hi =>
      fetchRaw_overwrites gw a "biographies" _ _ resp raw hg hi
  · exact fun gw a r s => fetchRaw_calls_fetch gw a "blogs" _ _
  · exact fun gw a r s resp raw hg hi => fetchRaw_overwrites gw a "blogs" _ _ resp raw hg hi
  · exact fun gw a => fetchRaw_calls_fetch gw a "familiarity" _ _
  · exact fun gw a resp raw hg hi => fetchRaw_overwrites gw a "familiarity" _ _ resp raw hg hi
  · exact fun gw a r s l => fetchRaw_calls_fetch gw a "images" _ _
  · exact fun gw a r s l resp raw hg hi => fetchRaw_overwrites gw a "images" _ _ resp raw hg hi
  · exact fun gw a r s => fetchRaw_calls_fetch gw a "news" _ _
  · exact fun gw a r s resp raw hg hi => fetchRaw_overwrites gw a "news" _ _ resp raw hg hi
  · exact fun gw a r s => fetchRaw_calls_fetch gw a "reviews" _ _
  · exact fun gw a r s resp raw hg hi => fetchRaw_overwrites gw a "reviews" _ _ resp raw hg hi
  · exact fun gw a r s f1 f2 f3 f4 b l => fetchRaw_calls_fetch gw a "similar" _ _
  · exact fun gw a r s f1 f2 f3 f4 b l resp raw hg hi =>
      fetchRaw_overwrites gw a "similar" _ _ resp raw hg hi
  · exact fun gw a => fetchRaw_calls_fetch gw a "urls" _ _
  · exact fun gw a resp raw hg hi => fetchRaw_overwrites gw a "urls" _ _ resp raw hg hi
  · exact fun gw a r s => fetchRaw_calls_fetch gw a "video" _ _
  · exact fun gw a r s resp raw hg hi => fetchRaw_overwrites gw a "video" _ _ resp raw hg hi
  · exact fun gw a ns => foreign_calls_fetch gw a ns
  · exact fun gw a ns resp kvs hg ho => foreign_overwrites gw a ns resp kvs hg ho

/-- Closed instance of C2 for `get_hotttnesss` on an artist whose cache
already holds a stale value: the gateway is still invoked and the stale
entry is overwritten with the fresh value. -/
theorem claim_C2_witness :
    (get_hotttnesss gwHot artistPre false).calls = [⟨"ARH6W4X1187B99274F", "hotttnesss", []⟩]
      ∧ kvLookup (get_hotttnesss gwHot artistPre false).artist.cache "hotttnesss"
          = some (.num 1) :=
  ⟨claim_C2.1.1 gwHot artistPre, claim_C2.1.2 gwHot artistPre respHot (.num 1) rfl rfl⟩

/-- C3: for every accessor, if the gateway call made on the fetch path fails,
the failure propagates unchanged to the caller (as a gateway error with the
same message), the entity including its cache is exactly as before the call,
and exactly that one request was attempted. -/
theorem claim_C3 :
    (∀ (gw : AttrGateway) (a : Artist) (u : Bool) (e : String),
        gw ⟨a.id, "hotttnesss", []⟩ = .error e →
        (u && cacheContains a.cache "hotttnesss") = false →
        get_hotttnesss gw a u = ⟨.error (.gateway e), a, [⟨a.id, "hotttnesss", []⟩]⟩)
  ∧ (∀ (gw : AttrGateway) (a : Artist) (r s : Int) (u : Bool) (e : String),
        gw ⟨a.id, "audio", rsParams r s⟩ = .error e →
        (u && cacheContains a.cache "audio") = false →
        get_audio gw a r s u = ⟨.error (.gateway e), a, [⟨a.id, "audio", rsParams r s⟩]⟩)
  ∧ (∀ (gw : AttrGateway) (a : Artist) (r s : Int) (l : String) (u : Bool) (e : String),
        gw ⟨a.id, "biographies", rsParams r s⟩ = .error e →
        (u && cacheContains a.cache "biographies") = false →
        get_biographies gw a r s l u
          = ⟨.error (.gateway e), a, [⟨a.id, "biographies", rsParams r s⟩]⟩)
  ∧ (∀ (gw : AttrGateway) (a : Artist) (r s : Int) (u : Bool) (e : String),
        gw ⟨a.id, "blogs", rsParams r s⟩ = .error e →
        (u && cacheContains a.cache "blogs") = false →
        get_blogs gw a r s u = ⟨.error (.gateway e), a, [⟨a.id, "blogs", rsParams r s⟩]⟩)
  ∧ (∀ (gw : AttrGateway) (a : Artist) (u : Bool) (e : String),
        gw ⟨a.id, "familiarity", []⟩ = .error e →
        (u && cacheContains a.cache "familiarity") = false →
        get_familiarity gw a u = ⟨.error (.gateway e), a, [⟨a.id, "familiarity", []⟩]⟩)
  ∧ (∀ (gw : AttrGateway) (a : Artist) (r s : Int) (l : String) (u : Bool) (e : String),
        gw ⟨a.id, "images", rsParams r s⟩ = .error e →
        (u && cacheContains a.cache "images") = false →
        get_images gw a r s l u = ⟨.error (.gateway e), a, [⟨a.id, "images", rsParams r s⟩]⟩)
  ∧ (∀ (gw : AttrGateway) (a : Artist) (r s : Int) (u : Bool) (e : String),
        gw ⟨a.id, "news", rsParams r s⟩ = .error e →
        (u && cacheContains a.cache "news") = false →
        get_news gw a r s u = ⟨.error (.gateway e), a, [⟨a.id, "news", rsParams r s⟩]⟩)
  ∧ (∀ (gw : AttrGateway) (a : Artist) (r s : Int) (u : Bool) (e : String),
        gw ⟨a.id, "reviews", rsParams r s⟩ = .error e →
        (u && cacheContains a.cache "reviews") = false →
        get_reviews gw a r s u = ⟨.error (.gateway e), a, [⟨a.id, "reviews", rsParams r s⟩]⟩)
  ∧ (∀ (gw : AttrGateway) (a : Artist) (r s : Int) (f1 f2 f3 f4 : Option Rat)
        (b : Option (List String)) (l : Bool) (u : Bool) (e : String),
        gw ⟨a.id, "similar", rsParams r s ++ get_similar_kwargs f1 f2 f3 f4 b l⟩ = .error e →
        (u && cacheContains a.cache "similar") = false →
        get_similar gw a r s f1 f2 f3 f4 b l u
          = ⟨.error (.gateway e), a,
              [⟨a.id, "similar", rsParams r s ++ get_similar_kwargs f1 f2 f3 f4 b l⟩]⟩)
  ∧ (∀ (gw : AttrGateway) (a : Artist) (u : Bool) (e : String),
        gw ⟨a.id, "urls", []⟩ = .error e →
        (u && cacheContains a.cache "urls") = false →
        get_urls gw a u = ⟨.error (.gateway e), a, [⟨a.id, "urls", []⟩]⟩)
  ∧ (∀ (gw : AttrGateway) (a : Artist) (r s : Int) (u : Bool) (e : String),
        gw ⟨a.id, "video", rsParams r s⟩ = .error e →
        (u && cacheContains a.cache "video") = false →
        get_video gw a r s u = ⟨.error (.gateway e), a, [⟨a.id, "video", rsParams r s⟩]⟩)
  ∧ (∀ (gw : AttrGateway) (a : Artist) (ns : String) (u : Bool) (e : String),
        gw ⟨a.id, "profile", [("bucket", .strList ["id:" ++ ns])]⟩ = .error e →
        (u && cacheContains a.cache ns) = false →
        get_foreign_id gw a ns u
          = ⟨.error (.gateway e), a,
              [⟨a.id, "profile", [("bucket", .strList ["id:" ++ ns])]⟩]⟩) := by
  refine ⟨?_, ?_, ?_, ?_, ?_, ?_, ?_, ?_, ?_, ?_, ?_, ?_⟩
  · exact fun gw a u e hg h => fetchRaw_gwError gw a "hotttnesss" _ _ u e hg h
  · intro gw a r s u e hg h
    show mapOutcome (adaptResults "audio")
        (fetchRaw gw a "audio" ⟨a.id, "audio", rsParams r s⟩ ["audio"] u) = _
    rw [fetchRaw_gwError gw a "audio" ⟨a.id, "audio", rsParams r s⟩ ["audio"] u e hg h]
    rfl
  · intro gw a r s l u e hg h
    show mapOutcome (adaptResults "biography")
        (fetchRaw gw a "biographies" ⟨a.id, "biographies", rsParams r s⟩ ["biographies"] u)
      = _
    rw [fetchRaw_gwError gw a "biographies" ⟨a.id, "biographies", rsParams r s⟩ ["biographies"]
      u e hg h]
    rfl
  · intro gw a r s u e hg h
    show mapOutcome (adaptResults "blogs")
        (fetchRaw gw a "blogs" ⟨a.id, "blogs", rsParams r s⟩ ["blogs"] u) = _
    rw [fetchRaw_gwError gw a "blogs" ⟨a.id, "blogs", rsParams r s⟩ ["blogs"] u e hg h]
    rfl
  · exact fun gw a u e hg h => fetchRaw_gwError gw a "familiarity" _ _ u e hg h
  · intro gw a r s l u e hg h
    show mapOutcome (adaptResults "image")
        (fetchRaw gw a "images" ⟨a.id, "images", rsParams r s⟩ ["images"] u) = _
    rw [fetchRaw_gwError gw a "images" ⟨a.id, "images", rsParams r s⟩ ["images"] u e hg h]
    rfl
  · intro gw a r s u e hg h
    show mapOutcome (adaptResults "news")
        (fetchRaw gw a "news" ⟨a.id, "news", rsParams r s⟩ ["news"] u) = _
    rw [fetchRaw_gwError gw a "news" ⟨a.id, "news", rsParams r s⟩ ["news"] u e hg h]
    rfl
  · intro gw a r s u e hg h
    show mapOutcome (adaptResults "review")
        (fetchRaw gw a "reviews" ⟨a.id, "reviews", rsParams r s⟩ ["reviews"] u) = _
    rw [fetchRaw_gwError gw a "reviews" ⟨a.id, "reviews", rsParams r s⟩ ["reviews"] u e hg h]
    rfl
  · intro gw a r s f1 f2 f3 f4 b l u e hg h
    show mapOutcome adaptArtists
        (fetchRaw gw a "similar"
          ⟨a.id, "similar", rsParams r s ++ get_similar_kwargs f1 f2 f3 f4 b l⟩ ["artists"] u)
      = _
    rw [fetchRaw_gwError gw a "similar"
      ⟨a.id, "similar", rsParams r s ++ get_similar_kwargs f1 f2 f3 f4 b l⟩ ["artists"] u e hg
      h]
    rfl
  · intro gw a u e hg h
    show mapOutcome (fun w => .ok (Result.mk "urls" w))
        (fetchRaw gw a "urls" ⟨a.id, "urls", []⟩ ["urls"] u) = _
    rw [fetchRaw_gwError gw a "urls" ⟨a.id, "urls", []⟩ ["urls"] u e hg h]
    rfl
  · intro gw a r s u e hg h
    show mapOutcome (adaptResults "video")
        (fetchRaw gw a "video" ⟨a.id, "video", rsParams r s⟩ ["video"] u) = _
    rw [fetchRaw_gwError gw a "video" ⟨a.id, "video", rsParams r s⟩ ["video"] u e hg h]
    rfl
  · exact fun gw a ns u e hg h => foreign_gwError gw a ns u e hg h

/-- Closed instance of C3 for `get_hotttnesss`: a failing gateway leaves the
fresh artist untouched and the error surfaces unchanged. -/
theorem claim_C3_witness :
    get_hotttnesss gwBoom artist0 false
      = ⟨.error (.gateway "boom"), artist0, [⟨"ARH6W4X1187B99274F", "hotttnesss", []⟩]⟩ :=
  claim_C3.1 gwBoom artist0 false "boom" rfl rfl

theorem queryCall_ok (gw : CallmGateway) (p : String) (ps : Params) (resp : Value)
    (xs : List Value) (arts : List Artist) (hg : gw ⟨p, ps⟩ = .ok resp)
    (hi : indexPath resp ["response", "artists"] = .ok (.arr xs))
    (ha : artistsOf xs = .ok arts) :
    queryCall gw p ps = ⟨.ok arts, [⟨p, ps⟩]⟩ := by
  unfold queryCall
  simp [hg, hi, ha]

theorem artistsOf_length (xs : List Value) (arts : List Artist)
    (h : artistsOf xs = .ok arts) : arts.length = xs.length := by
  induction xs generalizing arts with
  | nil =>
      simp [artistsOf] at h
      simp [← h]
  | cons v vs ih =>
      cases v with
      | obj kvs =>
          revert h
          simp only [artistsOf]
          cases artistFromDict kvs with
          | error e => simp
          | ok a =>
              cases hR : artistsOf vs with
              | error e => simp
              | ok rest =>
                  intro h
                  simp at h
                  rw [← h]
                  simp [ih rest hR]
      | null => simp [artistsOf] at h
      | str s2 => simp [artistsOf] at h
      | num q => simp [artistsOf] at h
      | arr ys => simp [artistsOf] at h

/-- C5: `search(name="the national", results=5)` sends exactly the parameter
mapping `{"name": "the national", "results": 5}` (one gateway invocation at
`artist/search`), and on success one `Artist` is returned per element of
`response['response']['artists']`. -/
theorem claim_C5 :
    (∀ gw : CallmGateway,
        (search gw (some "the national") none 5 none false false false none none none none
            none).calls
          = [⟨"artist/search", [("name", .str "the national"), ("results", .num 5)]⟩])
  ∧ (∀ (gw : CallmGateway) (resp : Value) (xs : List Value) (arts : List Artist),
        gw ⟨"artist/search", [("name", .str "the national"), ("results", .num 5)]⟩
            = .ok resp →
        indexPath resp ["response", "artists"] = .ok (.arr xs) →
        artistsOf xs = .ok arts →
        (search gw (some "the national") none 5 none false false false none none none none
              none).result
            = .ok arts
          ∧ arts.length = xs.length) := by
  constructor
  · intro gw
    simp only [search, queryCall_calls]
    decide
  · intro gw resp xs arts hg hi ha
    have hk : search_kwargs (some "the national") none 5 none false false false none none none
        none none = [("name", .str "the national"), ("results", .num 5)] := by decide
    constructor
    · show (queryCall gw "artist/search" (search_kwargs (some "the national") none 5 none
        false false false none none none none none)).result = .ok arts
      rw [hk, queryCall_ok gw _ _ resp xs arts hg hi ha]
    · exact artistsOf_length xs arts ha

/-- Closed instance of C5: against a gateway answering with two raw artist
entries, the search returns exactly two entities. -/
theorem claim_C5_witness :
    (search gwSearch (some "the national") none 5 none false false false none none none none
          none).result
        = .ok [⟨"A1", none, []⟩, ⟨"A2", none, []⟩]
      ∧ ([(⟨"A1", none, []⟩ : Artist), ⟨"A2", none, []⟩] : List Artist).length
          = ([.obj [("id", .str "A1")], .obj [("id", .str "A2")]] : List Value).length :=
  claim_C5.2 gwSearch respSearch [.obj [("id", .str "A1")], .obj [("id", .str "A2")]]
    [⟨"A1", none, []⟩, ⟨"A2", none, []⟩] rfl rfl rfl

/-- C6: on a cache miss, `get_foreign_id(ns)` requests the profile with
bucket `["id:" + ns]`; when the response's artist mapping lacks the
namespace key, the call returns the absent value (`null`, no error) and that
absence is cached under the namespace key itself. -/
theorem claim_C6 (gw : AttrGateway) (a : Artist) (ns : String) (u : Bool) (resp : Value)
    (kvs : List (String × Value)) (h : (u && cacheContains a.cache ns) = false)
    (hg : gw ⟨a.id, "profile", [("bucket", .strList ["id:" ++ ns])]⟩ = .ok resp)
    (ho : objIndex resp "artist" = .ok (.obj kvs)) (hn : kvLookup kvs ns = none) :
    get_foreign_id gw a ns u
      = ⟨.ok .null, { a with cache := cacheSet a.cache ns .null },
          [⟨a.id, "profile", [("bucket", .strList ["id:" ++ ns])]⟩]⟩ := by
  have hs := foreign_store gw a ns u resp kvs hg ho h
  rw [hn] at hs
  simpa using hs

/-- Closed instance of C6 at namespace `musicbrainz` on a fresh artist. -/
theorem claim_C6_witness :
    get_foreign_id gwNoNs artist0 "musicbrainz" true
      = ⟨.ok .null, { artist0 with cache := cacheSet artist0.cache "musicbrainz" .null },
          [⟨"ARH6W4X1187B99274F", "profile", [("bucket", .strList ["id:musicbrainz"])]⟩]⟩ :=
  claim_C6 gwNoNs artist0 "musicbrainz" true respNoNs [("id", .str "AR1")] rfl rfl rfl rfl

end Pyechonest
